import Mathlib

/-!
Verification of the minimal MCP server in `web_search_mcp.py`.

The development shallowly embeds the Python source:
* JSON values (the decoded stdin lines, the params, the outgoing responses)
  become the inductive `Json`.
* Python code that can raise is embedded in `Except PyExn`; the catch-all
  `except` clauses of the source become `match`es on that `Except`.
* Python's `x == "literal"` comparisons (which are true only when `x` is that
  very string) are embedded as a `match` extracting a string followed by a
  `String` equality test.
* The HTTP backend (`requests.post` plus the returned response object) is an
  external collaborator; it is a parameter `backend : Json → BackendOutcome`
  mapping the posted payload to either a raised exception or an HTTP response.
-/

/-- JSON values, the data flowing through the server.  Objects are association
lists of string keys; numbers are integers (no claim involves fractions). -/
inductive Json where
  | null
  | bool (b : Bool)
  | num (n : Int)
  | str (s : String)
  | arr (elems : List Json)
  | obj (fields : List (String × Json))

/-- Field lookup in a JSON object; `none` on anything that is not an object or
lacks the key.  Used only in theorem statements, not in the embedding itself. -/
def Json.lookupField : Json → String → Option Json
  | .obj fields, key => fields.lookup key
  | _, _ => none

/-- Whether a JSON value is an object (a Python `dict`). -/
def Json.isObj : Json → Bool
  | .obj _ => true
  | _ => false

/-- Whether a JSON value is a string. -/
def Json.isStr : Json → Bool
  | .str _ => true
  | _ => false

/-- Python truthiness (`if response:` in `main`): `None`, `False`, `0`, empty
string/list/dict are falsy, everything else truthy. -/
def jsonTruthy : Json → Bool
  | .null => false
  | .bool b => b
  | .num n => !(n == 0)
  | .str s => !(s == "")
  | .arr elems => !elems.isEmpty
  | .obj fields => !fields.isEmpty

/-- The Python exceptions the embedded code can raise.  `attributeError` is
`.get` called on a non-dict, `typeError` is iteration over a non-iterable or
`str + non-str`, the other two carry the message of the underlying failure. -/
inductive PyExn where
  | attributeError
  | typeError
  | requestException (msg : String)
  | jsonDecodeError (msg : String)

/-- `str(e)` for an exception, as used by `f"Request failed: {str(e)}"`.  The
messages of the message-free exceptions are abstracted to fixed strings. -/
def PyExn.text : PyExn → String
  | .attributeError => "object has no attribute"
  | .typeError => "unsupported operand type"
  | .requestException msg => msg
  | .jsonDecodeError msg => msg

/-- A single quote character, for Python `repr` of strings. -/
def singleQuote : String := String.singleton (Char.ofNat 39)

mutual
/-- Python `repr` of a JSON value (lists and dicts render their elements with
`repr`, strings are single-quoted, `None`/`True`/`False` as in Python). -/
def pyRepr : Json → String
  | .null => "None"
  | .bool true => "True"
  | .bool false => "False"
  | .num n => toString n
  | .str s => singleQuote ++ s ++ singleQuote
  | .arr elems => "[" ++ pyReprElems elems ++ "]"
  | .obj fields => "\x7b" ++ pyReprFields fields ++ "\x7d"

/-- Comma-separated `repr` of list elements. -/
def pyReprElems : List Json → String
  | [] => ""
  | [x] => pyRepr x
  | x :: y :: rest => pyRepr x ++ ", " ++ pyReprElems (y :: rest)

/-- Comma-separated `repr` of dict entries. -/
def pyReprFields : List (String × Json) → String
  | [] => ""
  | [(k, v)] => singleQuote ++ k ++ singleQuote ++ ": " ++ pyRepr v
  | (k, v) :: kv :: rest =>
      singleQuote ++ k ++ singleQuote ++ ": " ++ pyRepr v ++ ", " ++
        pyReprFields (kv :: rest)
end

/-- Python `str()` of a JSON value, as interpolated by the f-string
`f"Tool not found: {tool_name}"`: strings unquoted, containers via `repr`. -/
def pyStr : Json → String
  | .str s => s
  | j => pyRepr j

/-- The `response` object returned by `requests.post`: status code, raw body
text, and the outcome of `response.json()` (which raises on a malformed body,
modelled by the `Except`). -/
structure HttpResponse where
  status_code : Nat
  text : String
  jsonBody : Except String Json

/-- What the backend does for one POST: either `requests.post` raises (network
failure, timeout, ...) or it returns an HTTP response. -/
inductive BackendOutcome where
  | raises (msg : String)
  | responds (r : HttpResponse)

/-- The payload `search` POSTs to the proxy (source lines 19–23). -/
def searchPayload (query : Json) : Json :=
  .obj [("model", .str "web-search"),
        ("messages", .arr [.obj [("role", .str "user"), ("content", query)]]),
        ("max_tokens", .num 1024)]

/-- Python iteration, for `for block in content_blocks:`: lists yield their
elements, strings their one-character substrings, dicts their keys; everything
else raises `TypeError`. -/
def pyIter : Json → Except PyExn (List Json)
  | .arr elems => .ok elems
  | .str s => .ok (s.toList.map fun c => .str (String.singleton c))
  | .obj fields => .ok (fields.map fun kv => .str kv.1)
  | _ => .error .typeError

/-- One iteration of the accumulation loop of `search` (source lines 34–36),
given the local values `block.get("type")` and `block.get("text", "")`: when
the type value is the string `"text"`, append the text value to the
accumulator — `str + non-str` raises `TypeError`; any other type value leaves
the accumulator unchanged. -/
def blockStep (acc : String) (ty textVal : Json) : Except PyExn String :=
  match ty with
  | .str t =>
    if t = "text" then
      match textVal with
      | .str s => .ok (acc ++ s)
      | _ => .error .typeError
    else .ok acc
  | _ => .ok acc

/-- The accumulation loop of `search` (source lines 32–36): fold `blockStep`
over the blocks.  A non-dict block raises `AttributeError` (no `.get`). -/
def concatTextBlocks : List Json → String → Except PyExn String
  | [], acc => .ok acc
  | block :: rest, acc =>
    match block with
    | .obj bf =>
      match blockStep acc ((bf.lookup "type").getD .null)
          ((bf.lookup "text").getD (.str "")) with
      | .ok acc2 => concatTextBlocks rest acc2
      | .error e => .error e
    | _ => .error .attributeError

/-- The body of the `try:` block in `search` (source lines 25–38), given the
backend's outcome for this POST.  Errors are the exceptions the Python code
would raise at the corresponding point. -/
def searchTry (outcome : BackendOutcome) : Except PyExn String :=
  match outcome with
  | .raises msg => .error (.requestException msg)
  | .responds response =>
    if response.status_code ≠ 200 then
      .ok ("Error: Proxy returned status " ++ toString response.status_code ++
        " - " ++ response.text)
    else
      match response.jsonBody with
      | .error msg => .error (.jsonDecodeError msg)
      | .ok data =>
        match data with
        | .obj df =>
          match pyIter ((df.lookup "content").getD (.arr [])) with
          | .error e => .error e
          | .ok blocks =>
            match concatTextBlocks blocks "" with
            | .error e => .error e
            | .ok text_response =>
              .ok (if text_response = "" then "No results found."
                   else text_response)
        | _ => .error .attributeError

/-- `search` (source lines 10–41): POST the payload, run the `try:` body, and
let the catch-all `except Exception as e:` turn any exception into the string
`"Request failed: " ++ str(e)`.  The `Except` return type records that this
is a Python function that could in principle propagate an exception; the
totality claim C4 is that it never does. -/
def search (backend : Json → BackendOutcome) (query : Json) :
    Except PyExn String :=
  match searchTry (backend (searchPayload query)) with
  | .ok text => .ok text
  | .error e => .ok ("Request failed: " ++ e.text)

/-- The string `search` returns (it always returns one, see `search_eq_ok`). -/
def searchString (backend : Json → BackendOutcome) (query : Json) : String :=
  match searchTry (backend (searchPayload query)) with
  | .ok text => text
  | .error e => "Request failed: " ++ e.text

/-- The `result` object `initialize` returns (source lines 52–61). -/
def initResult : Json :=
  .obj [("protocolVersion", .str "2024-11-05"),
        ("capabilities", .obj [("tools", .obj [])]),
        ("serverInfo", .obj [("name", .str "Antigravity Search"),
                             ("version", .str "1.0.0")])]

/-- The full `initialize` response envelope (source lines 49–62). -/
def initResponse (req_id : Json) : Json :=
  .obj [("jsonrpc", .str "2.0"), ("id", req_id), ("result", initResult)]

/-- The single registered tool descriptor (source lines 72–85). -/
def toolDescriptor : Json :=
  .obj [("name", .str "search"),
        ("description",
          .str "Performs a Google Search using the Antigravity Proxy."),
        ("inputSchema",
          .obj [("type", .str "object"),
                ("properties",
                  .obj [("query",
                          .obj [("type", .str "string"),
                                ("description", .str "The search query")])]),
                ("required", .arr [.str "query"])])]

/-- The `tools/list` response envelope (source lines 68–87). -/
def toolsListResponse (req_id : Json) : Json :=
  .obj [("jsonrpc", .str "2.0"), ("id", req_id),
        ("result", .obj [("tools", .arr [toolDescriptor])])]

/-- The `tools/call` success envelope around the text `search` returned
(source lines 96–105). -/
def searchResultResponse (req_id : Json) (result : String) : Json :=
  .obj [("jsonrpc", .str "2.0"), ("id", req_id),
        ("result",
          .obj [("content",
                  .arr [.obj [("type", .str "text"),
                              ("text", .str result)]])])]

/-- The unknown-tool error envelope (source lines 107–114), with the f-string
`f"Tool not found: {tool_name}"`. -/
def toolNotFoundResponse (req_id tool_name : Json) : Json :=
  .obj [("jsonrpc", .str "2.0"), ("id", req_id),
        ("error", .obj [("code", .num (-32601)),
                        ("message",
                          .str ("Tool not found: " ++ pyStr tool_name))])]

/-- The `tool_name == "search"` branch of `tools/call` (source lines 93–105):
`args.get("query")` raises `AttributeError` when `args` is not a dict;
otherwise `search` is called on the query (defaulting to `None`) and its
result wrapped in a success envelope.  An exception from `search` would
propagate (`tools/call` has no handler of its own). -/
def searchToolCall (backend : Json → BackendOutcome) (req_id args : Json) :
    Except PyExn (Option Json) :=
  match args with
  | .obj af =>
    match search backend ((af.lookup "query").getD .null) with
    | .ok result => .ok (some (searchResultResponse req_id result))
    | .error e => .error e
  | _ => .error .attributeError

/-- The body of the `tools/call` branch given the local variables
`tool_name = params.get("name")` and `args = params.get("arguments", \x7b\x7d)`
(source lines 90–114): a `name` that is not the string `"search"` (including
a non-string) falls to the `Tool not found` error. -/
def toolsCallWith (backend : Json → BackendOutcome)
    (req_id tool_name args : Json) : Except PyExn (Option Json) :=
  match tool_name with
  | .str tn =>
    if tn = "search" then searchToolCall backend req_id args
    else .ok (some (toolNotFoundResponse req_id (.str tn)))
  | other => .ok (some (toolNotFoundResponse req_id other))

/-- The `tools/call` branch of `handle_request` (source lines 89–114), given
the local variables `params` and `req_id`.  `params.get(...)` raises
`AttributeError` on a non-dict `params`; on a dict it extracts `tool_name`
and `args` (neither extraction can raise). -/
def toolsCall (backend : Json → BackendOutcome) (req_id params : Json) :
    Except PyExn (Option Json) :=
  match params with
  | .obj pf =>
    toolsCallWith backend req_id ((pf.lookup "name").getD .null)
      ((pf.lookup "arguments").getD (.obj []))
  | _ => .error .attributeError

/-- The method dispatch of `handle_request` (source lines 48–116), given the
local variables `method`, `params`, `req_id` already extracted from the
request.  A method value that is not one of the four known strings (including
any non-string value) falls through to `return None`. -/
def dispatch (backend : Json → BackendOutcome) (method params req_id : Json) :
    Except PyExn (Option Json) :=
  match method with
  | .str m =>
    if m = "initialize" then .ok (some (initResponse req_id))
    else if m = "notifications/initialized" then .ok none
    else if m = "tools/list" then .ok (some (toolsListResponse req_id))
    else if m = "tools/call" then toolsCall backend req_id params
    else .ok none
  | _ => .ok none

/-- `handle_request` (source lines 43–116): extract the locals
`method = request.get("method")`, `params = request.get("params", \x7b\x7d)`,
`req_id = request.get("id")` — `.get` raises `AttributeError` when `request`
is not a dict — and dispatch on the method. -/
def handle_request (backend : Json → BackendOutcome) (request : Json) :
    Except PyExn (Option Json) :=
  match request with
  | .obj fields =>
    dispatch backend ((fields.lookup "method").getD .null)
      ((fields.lookup "params").getD (.obj []))
      ((fields.lookup "id").getD .null)
  | _ => .error .attributeError

/-- One line read from stdin, after `json.loads`: either the decode failed
(`json.JSONDecodeError`) or it produced a JSON value. -/
inductive InputLine where
  | decodeError
  | payload (j : Json)

/-- What one iteration of the `while` loop in `main` (source lines 122–138)
produces: the response lines written to stdout (zero or one) and whether a
diagnostic was written to stderr. -/
structure StepOutput where
  stdout : List Json
  loggedError : Bool

/-- How `main` reacts to what `handle_request` did (source lines 129–138): an
exception is caught and logged to stderr, a `None` response writes nothing,
and a returned response is written iff it is truthy (`if response:`). -/
def stepOf (res : Except PyExn (Option Json)) : StepOutput :=
  match res with
  | .error _ => ⟨[], true⟩
  | .ok none => ⟨[], false⟩
  | .ok (some response) =>
    if jsonTruthy response then ⟨[response], false⟩ else ⟨[], false⟩

/-- One iteration of the loop in `main`: decode failures are logged and
skipped, then the decoded request is handled as in `stepOf`. -/
def processLine (backend : Json → BackendOutcome) : InputLine → StepOutput
  | .decodeError => ⟨[], true⟩
  | .payload request => stepOf (handle_request backend request)

/-- The whole `main` loop over the list of stdin lines (until EOF): the
concatenation of the stdout lines of each iteration. -/
def serverRun (backend : Json → BackendOutcome) : List InputLine → List Json
  | [] => []
  | line :: rest => (processLine backend line).stdout ++ serverRun backend rest

/-- Whether a `tools/call` with the given extracted `tool_name` and `args`
values gets a response: when the named tool is `search` the `args` value must
be a dict, any other tool name always gets the error response. -/
def shouldRespondNamed (tool_name args : Json) : Bool :=
  match tool_name with
  | .str tn => if tn = "search" then args.isObj else true
  | _ => true

/-- Whether a `tools/call` message gets a response: `params` must be a dict,
and when the named tool is `search` the `arguments` value must be a dict. -/
def shouldRespondCall (params : Json) : Bool :=
  match params with
  | .obj pf =>
    shouldRespondNamed ((pf.lookup "name").getD .null)
      ((pf.lookup "arguments").getD (.obj []))
  | _ => false

/-- Whether a message with the given extracted `method` and `params` values
gets a response. -/
def shouldRespondMethod (method params : Json) : Bool :=
  match method with
  | .str m =>
    if m = "initialize" then true
    else if m = "notifications/initialized" then false
    else if m = "tools/list" then true
    else if m = "tools/call" then shouldRespondCall params
    else false
  | _ => false

/-- Characterization of when the server writes a response line for a decoded
message: the method must be `initialize`, `tools/list`, or `tools/call` (with,
for `tools/call`, a dict `params`, and a dict `arguments` when the tool is
`search`).  The presence of an `id` plays no role. -/
def shouldRespond : Json → Bool
  | .obj fields =>
    shouldRespondMethod ((fields.lookup "method").getD .null)
      ((fields.lookup "params").getD (.obj []))
  | _ => false

/-- A concrete backend for witnesses: every POST raises (network refused). -/
def offlineBackend : Json → BackendOutcome := fun _ => .raises "connection refused"

/-- The text a single well-formed block contributes, given its extracted
`type` and `text` values: the text when the type is `"text"` and the text is
a string, nothing otherwise. -/
def blockTextVal (ty textVal : Json) : String :=
  match ty with
  | .str t =>
    if t = "text" then
      match textVal with
      | .str s => s
      | _ => ""
    else ""
  | _ => ""

/-- The text a single block contributes to the concatenation. -/
def blockText : Json → String
  | .obj bf =>
    blockTextVal ((bf.lookup "type").getD .null)
      ((bf.lookup "text").getD (.str ""))
  | _ => ""

/-- The concatenation, in array order, of the `text` of every block whose
`type` is `"text"` — the value claim C5 says `search` returns on HTTP 200. -/
def textConcat : List Json → String
  | [] => ""
  | block :: rest => blockText block ++ textConcat rest

/-- A block the loop can process without raising, given its extracted `type`
and `text` values: when the type is the string `"text"`, the text value must
be a string. -/
def goodBlockVal (ty textVal : Json) : Bool :=
  match ty with
  | .str t => if t = "text" then textVal.isStr else true
  | _ => true

/-- A block the loop can process without raising: a dict whose `text` entry is
a string whenever its `type` entry is `"text"`. -/
def goodBlock : Json → Bool
  | .obj bf =>
    goodBlockVal ((bf.lookup "type").getD .null)
      ((bf.lookup "text").getD (.str ""))
  | _ => false

theorem search_eq_ok (backend : Json → BackendOutcome) (query : Json) :
    search backend query = .ok (searchString backend query) := by
  unfold search searchString
  cases searchTry (backend (searchPayload query)) <;> rfl

theorem jsonTruthy_initResponse (i : Json) :
    jsonTruthy (initResponse i) = true := rfl

theorem jsonTruthy_toolsListResponse (i : Json) :
    jsonTruthy (toolsListResponse i) = true := rfl

theorem jsonTruthy_searchResultResponse (i : Json) (s : String) :
    jsonTruthy (searchResultResponse i s) = true := rfl

theorem jsonTruthy_toolNotFoundResponse (i t : Json) :
    jsonTruthy (toolNotFoundResponse i t) = true := rfl

theorem stepOf_toolsCallWith_length (backend : Json → BackendOutcome)
    (req_id tool_name args : Json) :
    (stepOf (toolsCallWith backend req_id tool_name args)).stdout.length
      = cond (shouldRespondNamed tool_name args) 1 0 := by
  cases tool_name with
  | str tn =>
    by_cases h5 : tn = "search"
    · subst h5
      simp only [toolsCallWith, shouldRespondNamed, if_pos]
      cases args with
      | obj af =>
        simp [searchToolCall, search_eq_ok, stepOf, Json.isObj,
          jsonTruthy_searchResultResponse]
      | null => simp [searchToolCall, stepOf, Json.isObj]
      | bool b => simp [searchToolCall, stepOf, Json.isObj]
      | num n => simp [searchToolCall, stepOf, Json.isObj]
      | str s => simp [searchToolCall, stepOf, Json.isObj]
      | arr elems => simp [searchToolCall, stepOf, Json.isObj]
    · simp [toolsCallWith, shouldRespondNamed, h5, stepOf,
        jsonTruthy_toolNotFoundResponse]
  | null => simp [toolsCallWith, shouldRespondNamed, stepOf,
      jsonTruthy_toolNotFoundResponse]
  | bool b => simp [toolsCallWith, shouldRespondNamed, stepOf,
      jsonTruthy_toolNotFoundResponse]
  | num n => simp [toolsCallWith, shouldRespondNamed, stepOf,
      jsonTruthy_toolNotFoundResponse]
  | arr elems => simp [toolsCallWith, shouldRespondNamed, stepOf,
      jsonTruthy_toolNotFoundResponse]
  | obj fields2 => simp [toolsCallWith, shouldRespondNamed, stepOf,
      jsonTruthy_toolNotFoundResponse]

theorem stepOf_toolsCall_length (backend : Json → BackendOutcome)
    (req_id params : Json) :
    (stepOf (toolsCall backend req_id params)).stdout.length
      = cond (shouldRespondCall params) 1 0 := by
  cases params with
  | obj pf =>
    simp only [toolsCall, shouldRespondCall]
    exact stepOf_toolsCallWith_length backend req_id _ _
  | null => simp [toolsCall, shouldRespondCall, stepOf]
  | bool b => simp [toolsCall, shouldRespondCall, stepOf]
  | num n => simp [toolsCall, shouldRespondCall, stepOf]
  | str s => simp [toolsCall, shouldRespondCall, stepOf]
  | arr elems => simp [toolsCall, shouldRespondCall, stepOf]

/-- Claim C1 (counterexample): the message `{"method": "initialize"}` is a
notification — it carries no `id` — yet the server emits one Response line for
it (with `id: null`), so a Response is not emitted "iff the message carried an
`id`", and notifications do not always produce zero Response lines. -/
theorem C1_counterexample :
    Json.lookupField (Json.obj [("method", Json.str "initialize")]) "id"
        = none ∧
    (processLine (fun _ => BackendOutcome.raises "down")
        (InputLine.payload (Json.obj [("method", Json.str "initialize")]))).stdout
        = [initResponse Json.null] ∧
    initResponse Json.null :: ([] : List Json) ≠ [] :=
  ⟨rfl, rfl, List.cons_ne_nil _ _⟩

/-- Claim C1 (amended): emission of a Response line is determined by the
method (and the shape of `params`/`arguments`), not by the presence of an
`id`: for every decoded message, exactly one Response line is emitted when
`shouldRespond` holds — the method is `initialize`, `tools/list`, or a
well-shaped `tools/call` — and zero otherwise, regardless of `id`. -/
theorem C1_response_iff_responding_method (backend : Json → BackendOutcome)
    (request : Json) :
    (processLine backend (InputLine.payload request)).stdout.length
      = cond (shouldRespond request) 1 0 := by
  cases request with
  | obj fields =>
    simp only [processLine, handle_request, shouldRespond]
    cases (fields.lookup "method").getD .null with
    | str m =>
      by_cases h1 : m = "initialize"
      · simp [h1, dispatch, shouldRespondMethod, stepOf, initResponse,
          jsonTruthy]
      · by_cases h2 : m = "notifications/initialized"
        · simp [h1, h2, dispatch, shouldRespondMethod, stepOf]
        · by_cases h3 : m = "tools/list"
          · simp [h1, h2, h3, dispatch, shouldRespondMethod, stepOf,
              toolsListResponse, jsonTruthy]
          · by_cases h4 : m = "tools/call"
            · simp only [h1, h2, h3, h4, dispatch, shouldRespondMethod,
                if_false, if_true]
              exact stepOf_toolsCall_length backend
                ((fields.lookup "id").getD .null)
                ((fields.lookup "params").getD (.obj []))
            · simp [h1, h2, h3, h4, dispatch, shouldRespondMethod, stepOf]
    | _ => simp [dispatch, shouldRespondMethod, stepOf]
  | _ => simp [processLine, handle_request, shouldRespond, stepOf]

/-- Claim C2: a decoded message object whose method is not one of the four
known methods (in particular any unknown string method, or a non-string
method) produces no output at all — `handle_request` returns `None`, nothing
is written to stdout, and no diagnostic is logged — even when the message
carries an `id`. -/
theorem C2_unknown_method_silent (backend : Json → BackendOutcome)
    (fields : List (String × Json))
    (hm : ∀ s : String, (fields.lookup "method").getD .null = Json.str s →
      s ≠ "initialize" ∧ s ≠ "notifications/initialized" ∧
      s ≠ "tools/list" ∧ s ≠ "tools/call") :
    handle_request backend (.obj fields) = .ok none ∧
    processLine backend (.payload (.obj fields)) = ⟨[], false⟩ := by
  have hhr : handle_request backend (.obj fields) = .ok none := by
    simp only [handle_request]
    cases hv : (fields.lookup "method").getD .null with
    | str m =>
      obtain ⟨h1, h2, h3, h4⟩ := hm m hv
      simp [dispatch, h1, h2, h3, h4]
    | _ => simp [dispatch]
  exact ⟨hhr, by simp [processLine, hhr, stepOf]⟩

/-- Witness for C2: the request `{"method": "frobnicate", "id": 7}` — an
unknown method carrying an `id` — yields no response. -/
theorem C2_witness :
    handle_request (fun _ => BackendOutcome.raises "down")
        (.obj [("method", Json.str "frobnicate"), ("id", Json.num 7)])
      = .ok none ∧
    processLine (fun _ => BackendOutcome.raises "down")
        (.payload (.obj [("method", Json.str "frobnicate"), ("id", Json.num 7)]))
      = ⟨[], false⟩ :=
  C2_unknown_method_silent (fun _ => BackendOutcome.raises "down")
    [("method", Json.str "frobnicate"), ("id", Json.num 7)]
    (by
      intro s hs
      simp only [List.lookup] at hs
      simp at hs
      refine ⟨?_, ?_, ?_, ?_⟩ <;> (subst hs; decide))

theorem stepOf_error_stdout (e : PyExn) : (stepOf (.error e)).stdout = [] := rfl

theorem dispatch_toolsCall (backend : Json → BackendOutcome)
    (params req_id : Json) :
    dispatch backend (.str "tools/call") params req_id
      = toolsCall backend req_id params := rfl

/-- Every response line the dispatcher can emit is one of the four envelope
shapes, each carrying the request's `id`. -/
theorem emitted_shape (backend : Json → BackendOutcome)
    (method params req_id r : Json) :
    (stepOf (dispatch backend method params req_id)).stdout = [r] →
    r = initResponse req_id ∨ r = toolsListResponse req_id ∨
    (∃ s, r = searchResultResponse req_id s) ∨
    (∃ t, r = toolNotFoundResponse req_id t) := by
  intro h
  cases method with
  | str m =>
    by_cases h1 : m = "initialize"
    · subst h1
      simp [dispatch, stepOf, jsonTruthy_initResponse] at h
      exact Or.inl h.symm
    · by_cases h2 : m = "notifications/initialized"
      · subst h2
        simp [dispatch, stepOf] at h
      · by_cases h3 : m = "tools/list"
        · subst h3
          simp [dispatch, stepOf, jsonTruthy_toolsListResponse] at h
          exact Or.inr (Or.inl h.symm)
        · by_cases h4 : m = "tools/call"
          · subst h4
            rw [dispatch_toolsCall] at h
            cases params with
            | obj pf =>
              simp only [toolsCall] at h
              cases hn : (pf.lookup "name").getD .null with
              | str tn =>
                rw [hn] at h
                simp only [toolsCallWith] at h
                by_cases h5 : tn = "search"
                · subst h5
                  rw [if_pos rfl] at h
                  cases ha : (pf.lookup "arguments").getD (.obj []) with
                  | obj af =>
                    rw [ha] at h
                    simp only [searchToolCall, search_eq_ok] at h
                    simp [stepOf, jsonTruthy_searchResultResponse] at h
                    exact Or.inr (Or.inr (Or.inl ⟨_, h.symm⟩))
                  | null => rw [ha] at h; simp [searchToolCall, stepOf] at h
                  | bool b => rw [ha] at h; simp [searchToolCall, stepOf] at h
                  | num n => rw [ha] at h; simp [searchToolCall, stepOf] at h
                  | str s => rw [ha] at h; simp [searchToolCall, stepOf] at h
                  | arr elems =>
                    rw [ha] at h; simp [searchToolCall, stepOf] at h
                · rw [if_neg h5] at h
                  simp [stepOf, jsonTruthy_toolNotFoundResponse] at h
                  exact Or.inr (Or.inr (Or.inr ⟨.str tn, h.symm⟩))
              | null =>
                rw [hn] at h
                simp [toolsCallWith, stepOf,
                  jsonTruthy_toolNotFoundResponse] at h
                exact Or.inr (Or.inr (Or.inr ⟨.null, h.symm⟩))
              | bool b =>
                rw [hn] at h
                simp [toolsCallWith, stepOf,
                  jsonTruthy_toolNotFoundResponse] at h
                exact Or.inr (Or.inr (Or.inr ⟨.bool b, h.symm⟩))
              | num n =>
                rw [hn] at h
                simp [toolsCallWith, stepOf,
                  jsonTruthy_toolNotFoundResponse] at h
                exact Or.inr (Or.inr (Or.inr ⟨.num n, h.symm⟩))
              | arr elems =>
                rw [hn] at h
                simp [toolsCallWith, stepOf,
                  jsonTruthy_toolNotFoundResponse] at h
                exact Or.inr (Or.inr (Or.inr ⟨.arr elems, h.symm⟩))
              | obj fields2 =>
                rw [hn] at h
                simp [toolsCallWith, stepOf,
                  jsonTruthy_toolNotFoundResponse] at h
                exact Or.inr (Or.inr (Or.inr ⟨.obj fields2, h.symm⟩))
            | null => simp [toolsCall, stepOf] at h
            | bool b => simp [toolsCall, stepOf] at h
            | num n => simp [toolsCall, stepOf] at h
            | str s => simp [toolsCall, stepOf] at h
            | arr elems => simp [toolsCall, stepOf] at h
          · simp [dispatch, h1, h2, h3, h4, stepOf] at h
  | null => simp [dispatch, stepOf] at h
  | bool b => simp [dispatch, stepOf] at h
  | num n => simp [dispatch, stepOf] at h
  | arr elems => simp [dispatch, stepOf] at h
  | obj fields2 => simp [dispatch, stepOf] at h

/-- Claim C3: a `tools/call` whose `params.name` is a string other than
`"search"` yields a Response whose `error` has code `-32601` and whose message
contains the tool name (as the suffix of `"Tool not found: "`); moreover every
emitted response either has no `error` field at all or is exactly such a
`Tool not found` response — the only protocol-level error the dispatcher ever
produces. -/
theorem C3_unknown_tool_only_error (backend : Json → BackendOutcome)
    (request r : Json) (fields pf : List (String × Json)) (n : String) :
    ((fields.lookup "method").getD .null = Json.str "tools/call" →
     (fields.lookup "params").getD (.obj []) = Json.obj pf →
     (pf.lookup "name").getD .null = Json.str n →
     n ≠ "search" →
     handle_request backend (.obj fields)
         = .ok (some (toolNotFoundResponse ((fields.lookup "id").getD .null)
             (.str n))) ∧
     (toolNotFoundResponse ((fields.lookup "id").getD .null)
           (.str n)).lookupField "error"
         = some (.obj [("code", .num (-32601)),
                       ("message", .str ("Tool not found: " ++ n))]) ∧
     (∃ pre, "Tool not found: " ++ n = pre ++ n)) ∧
    ((processLine backend (.payload request)).stdout = [r] →
     r.lookupField "error" = none ∨
     ∃ i t, r = toolNotFoundResponse i t) := by
  constructor
  · intro hm hp hn hne
    refine ⟨?_, rfl, ⟨"Tool not found: ", rfl⟩⟩
    simp only [handle_request, hm, dispatch_toolsCall, hp, toolsCall, hn,
      toolsCallWith]
    rw [if_neg hne]
  · intro hr
    cases request with
    | obj fields2 =>
      simp only [processLine, handle_request] at hr
      rcases emitted_shape backend _ _ _ r hr with h | h | ⟨s, h⟩ | ⟨t, h⟩
      · exact Or.inl (by rw [h]; rfl)
      · exact Or.inl (by rw [h]; rfl)
      · exact Or.inl (by rw [h]; rfl)
      · exact Or.inr ⟨_, t, h⟩
    | null => simp [processLine, handle_request, stepOf] at hr
    | bool b => simp [processLine, handle_request, stepOf] at hr
    | num n2 => simp [processLine, handle_request, stepOf] at hr
    | str s => simp [processLine, handle_request, stepOf] at hr
    | arr elems => simp [processLine, handle_request, stepOf] at hr

/-- Witness for C3: `tools/call` with tool name `"frobnicate"` yields the
`-32601` error response whose message contains `"frobnicate"`. -/
theorem C3_witness :
    handle_request offlineBackend
        (.obj [("method", Json.str "tools/call"), ("id", Json.num 3),
               ("params", Json.obj [("name", Json.str "frobnicate")])])
      = .ok (some (toolNotFoundResponse (Json.num 3)
          (Json.str "frobnicate"))) ∧
    (∃ pre, "Tool not found: " ++ "frobnicate" = pre ++ "frobnicate") :=
  have h := (C3_unknown_tool_only_error offlineBackend Json.null Json.null
    [("method", Json.str "tools/call"), ("id", Json.num 3),
     ("params", Json.obj [("name", Json.str "frobnicate")])]
    [("name", Json.str "frobnicate")] "frobnicate").1 rfl rfl rfl (by decide)
  ⟨h.1, h.2.2⟩

/-- Claim C4: the search adapter is total at its boundary — for every backend
outcome it returns `Except.ok` with some plain text (the catch-all `except`
cannot be bypassed), and each failure mode degrades to a textual result: a
raised request exception becomes `"Request failed: ..."`, a non-200 status the
status/body text, and a malformed 200 body its decode failure text. -/
theorem C4_search_total_degrades (backend : Json → BackendOutcome)
    (query : Json) (e msg bodytext : String) (r : HttpResponse) :
    (∃ s : String, search backend query = .ok s) ∧
    search (fun _ => .raises e) query = .ok ("Request failed: " ++ e) ∧
    (r.status_code ≠ 200 →
      search (fun _ => .responds r) query
        = .ok ("Error: Proxy returned status " ++ toString r.status_code ++
            " - " ++ r.text)) ∧
    search (fun _ => .responds ⟨200, bodytext, .error msg⟩) query
      = .ok ("Request failed: " ++ msg) := by
  refine ⟨⟨searchString backend query, search_eq_ok backend query⟩, rfl, ?_,
    rfl⟩
  intro h200
  simp only [search, searchTry]
  rw [if_pos h200]

/-- Witness for C4: a backend replying HTTP 404 with body `"nf"` makes
`search` return the corresponding status text. -/
theorem C4_witness :
    search (fun _ => BackendOutcome.responds ⟨404, "nf", .error "x"⟩)
        (Json.str "q")
      = .ok ("Error: Proxy returned status " ++ toString 404 ++ " - " ++ "nf")
    :=
  (C4_search_total_degrades offlineBackend (Json.str "q") "e" "m" "b"
    ⟨404, "nf", .error "x"⟩).2.2.1 (by decide)

theorem str_empty_append (s : String) : "" ++ s = s := by
  cases s with
  | mk data => rfl

theorem blockStep_good (acc : String) (ty textVal : Json)
    (h : goodBlockVal ty textVal = true) :
    blockStep acc ty textVal = .ok (acc ++ blockTextVal ty textVal) := by
  cases ty with
  | str t =>
    by_cases ht : t = "text"
    · subst ht
      simp only [goodBlockVal, if_pos rfl] at h
      cases textVal with
      | str s => simp [blockStep, blockTextVal]
      | null => simp [Json.isStr] at h
      | bool b => simp [Json.isStr] at h
      | num n => simp [Json.isStr] at h
      | arr elems => simp [Json.isStr] at h
      | obj fields => simp [Json.isStr] at h
    · simp [blockStep, blockTextVal, ht]
  | null => simp [blockStep, blockTextVal]
  | bool b => simp [blockStep, blockTextVal]
  | num n => simp [blockStep, blockTextVal]
  | arr elems => simp [blockStep, blockTextVal]
  | obj fields => simp [blockStep, blockTextVal]

theorem concatTextBlocks_good (blocks : List Json) :
    ∀ acc : String, (∀ b ∈ blocks, goodBlock b = true) →
    concatTextBlocks blocks acc = .ok (acc ++ textConcat blocks) := by
  induction blocks with
  | nil =>
    intro acc h
    simp [concatTextBlocks, textConcat]
  | cons b rest ih =>
    intro acc h
    have hb : goodBlock b = true := h b (List.mem_cons_self b rest)
    have hrest : ∀ x ∈ rest, goodBlock x = true :=
      fun x hx => h x (List.mem_cons_of_mem b hx)
    cases b with
    | obj bf =>
      simp only [goodBlock] at hb
      simp only [concatTextBlocks, blockStep_good _ _ _ hb, textConcat,
        blockText]
      rw [ih _ hrest, String.append_assoc]
    | null => simp [goodBlock] at hb
    | bool b2 => simp [goodBlock] at hb
    | num n => simp [goodBlock] at hb
    | str s => simp [goodBlock] at hb
    | arr elems => simp [goodBlock] at hb

/-- Claim C5: on HTTP 200 with a JSON-object body whose `content` value is an
array of well-formed blocks, `search` returns the concatenation, in array
order, of the `text` of every block whose `type` is `"text"`, falling back to
`"No results found."` exactly when that concatenation is empty. -/
theorem C5_http200_concats_text_blocks (backend : Json → BackendOutcome)
    (query : Json) (r : HttpResponse) (df : List (String × Json))
    (blocks : List Json)
    (hb : backend (searchPayload query) = .responds r)
    (h200 : r.status_code = 200)
    (hjson : r.jsonBody = .ok (.obj df))
    (hcontent : (df.lookup "content").getD (.arr []) = .arr blocks)
    (hgood : ∀ b ∈ blocks, goodBlock b = true) :
    search backend query
      = .ok (if textConcat blocks = "" then "No results found."
             else textConcat blocks) := by
  simp only [search, hb, searchTry]
  rw [if_neg (by simp [h200])]
  simp only [hjson, hcontent, pyIter, concatTextBlocks_good blocks "" hgood,
    str_empty_append]

/-- Witness for C5: a 200 body with two `text` blocks and one `image` block
concatenates the two texts in order. -/
theorem C5_witness :
    search
        (fun _ => BackendOutcome.responds ⟨200, "raw",
          .ok (.obj [("content", .arr
            [.obj [("type", Json.str "text"), ("text", Json.str "hello")],
             .obj [("type", Json.str "image"), ("url", Json.str "u")],
             .obj [("type", Json.str "text"),
                   ("text", Json.str " world")]])])⟩)
        (Json.str "X")
      = .ok "hello world" := by
  have h := C5_http200_concats_text_blocks
    (fun _ => BackendOutcome.responds ⟨200, "raw",
      .ok (.obj [("content", .arr
        [.obj [("type", Json.str "text"), ("text", Json.str "hello")],
         .obj [("type", Json.str "image"), ("url", Json.str "u")],
         .obj [("type", Json.str "text"), ("text", Json.str " world")]])])⟩)
    (Json.str "X") ⟨200, "raw",
      .ok (.obj [("content", .arr
        [.obj [("type", Json.str "text"), ("text", Json.str "hello")],
         .obj [("type", Json.str "image"), ("url", Json.str "u")],
         .obj [("type", Json.str "text"), ("text", Json.str " world")]])])⟩
    [("content", .arr
        [.obj [("type", Json.str "text"), ("text", Json.str "hello")],
         .obj [("type", Json.str "image"), ("url", Json.str "u")],
         .obj [("type", Json.str "text"), ("text", Json.str " world")]])]
    [.obj [("type", Json.str "text"), ("text", Json.str "hello")],
     .obj [("type", Json.str "image"), ("url", Json.str "u")],
     .obj [("type", Json.str "text"), ("text", Json.str " world")]]
    rfl rfl rfl rfl (by decide)
  simpa using h

theorem search_non200 (backend : Json → BackendOutcome) (q : Json)
    (r : HttpResponse) (hb : backend (searchPayload q) = .responds r)
    (h200 : r.status_code ≠ 200) :
    search backend q
      = .ok ("Error: Proxy returned status " ++ toString r.status_code ++
          " - " ++ r.text) := by
  simp only [search, hb, searchTry]
  rw [if_pos h200]

/-- Claim C6: when the backend replies with a non-200 status, a `tools/call`
of `search` yields a normal `result` Response — its envelope has a `result`
field wrapping one text content block and no `error` field — whose text
describes the status and body; and for status 500 that text contains the
string `"500"`. -/
theorem C6_non200_is_result_with_status (backend : Json → BackendOutcome)
    (r : HttpResponse) (fields pf af : List (String × Json))
    (hm : (fields.lookup "method").getD .null = Json.str "tools/call")
    (hp : (fields.lookup "params").getD (.obj []) = Json.obj pf)
    (hn : (pf.lookup "name").getD .null = Json.str "search")
    (ha : (pf.lookup "arguments").getD (.obj []) = Json.obj af)
    (hb : backend (searchPayload ((af.lookup "query").getD .null))
      = .responds r) :
    (r.status_code ≠ 200 →
      handle_request backend (.obj fields)
        = .ok (some (searchResultResponse ((fields.lookup "id").getD .null)
            ("Error: Proxy returned status " ++ toString r.status_code ++
              " - " ++ r.text))) ∧
      (searchResultResponse ((fields.lookup "id").getD .null)
            ("Error: Proxy returned status " ++ toString r.status_code ++
              " - " ++ r.text)).lookupField "error" = none ∧
      (searchResultResponse ((fields.lookup "id").getD .null)
            ("Error: Proxy returned status " ++ toString r.status_code ++
              " - " ++ r.text)).lookupField "result"
        = some (.obj [("content", .arr [.obj [("type", .str "text"),
            ("text", .str ("Error: Proxy returned status " ++
              toString r.status_code ++ " - " ++ r.text))]])])) ∧
    (r.status_code = 500 →
      ∃ pre post, searchString backend ((af.lookup "query").getD .null)
        = pre ++ "500" ++ post) := by
  constructor
  · intro h200
    refine ⟨?_, rfl, rfl⟩
    simp only [handle_request, hm, dispatch_toolsCall, hp, toolsCall, hn,
      toolsCallWith]
    rw [if_pos trivial]
    simp only [searchToolCall, ha, search_non200 backend _ r hb h200]
  · intro h500
    have hs : searchString backend ((af.lookup "query").getD .null)
        = "Error: Proxy returned status 500 - " ++ r.text := by
      simp only [searchString, hb, searchTry]
      rw [if_pos (by rw [h500]; decide), h500]
      rfl
    exact ⟨"Error: Proxy returned status ", " - " ++ r.text,
      by rw [hs, ← String.append_assoc]; exact rfl⟩

/-- Witness for C6: an HTTP 500 reply with body `"Internal Server Error"`
yields a `result` Response whose text carries the status, and the text
contains `"500"`. -/
theorem C6_witness :
    handle_request
        (fun _ => BackendOutcome.responds
          ⟨500, "Internal Server Error", .error "nj"⟩)
        (.obj [("method", Json.str "tools/call"), ("id", Json.num 4),
               ("params", Json.obj [("name", Json.str "search"),
                 ("arguments", Json.obj [("query", Json.str "X")])])])
      = .ok (some (searchResultResponse (Json.num 4)
          ("Error: Proxy returned status " ++ toString 500 ++ " - " ++
            "Internal Server Error"))) ∧
    ∃ pre post,
      searchString
          (fun _ => BackendOutcome.responds
            ⟨500, "Internal Server Error", .error "nj"⟩)
          ((([("query", Json.str "X")] : List (String × Json)).lookup
              "query").getD .null)
        = pre ++ "500" ++ post :=
  have h := C6_non200_is_result_with_status
    (fun _ => BackendOutcome.responds
      ⟨500, "Internal Server Error", .error "nj"⟩)
    ⟨500, "Internal Server Error", .error "nj"⟩
    [("method", Json.str "tools/call"), ("id", Json.num 4),
     ("params", Json.obj [("name", Json.str "search"),
       ("arguments", Json.obj [("query", Json.str "X")])])]
    [("name", Json.str "search"),
     ("arguments", Json.obj [("query", Json.str "X")])]
    [("query", Json.str "X")]
    rfl rfl rfl rfl rfl
  ⟨(h.1 (by decide)).1, h.2 rfl⟩

/-- Claim C7: `initialize` always succeeds and ignores its params (including
any requested protocolVersion): whatever the params value and the backend, it
returns the fixed result `\x7bprotocolVersion, capabilities: \x7btools: \x7b\x7d\x7d,
serverInfo: \x7bname, version\x7d\x7d`, and two calls (with arbitrary distinct
params and ids) produce structurally identical `result` objects. -/
theorem C7_init_idempotent_ignores_params
    (backend1 backend2 : Json → BackendOutcome) (p1 p2 i1 i2 : Json) :
    handle_request backend1
        (.obj [("method", Json.str "initialize"), ("params", p1), ("id", i1)])
      = .ok (some (initResponse i1)) ∧
    handle_request backend2
        (.obj [("method", Json.str "initialize"), ("params", p2), ("id", i2)])
      = .ok (some (initResponse i2)) ∧
    (initResponse i1).lookupField "result"
      = (initResponse i2).lookupField "result" ∧
    (initResponse i1).lookupField "result" = some initResult :=
  ⟨rfl, rfl, rfl, rfl⟩

/-- Claim C8: `tools/list` (whatever the params, the id and the backend)
returns a result whose `tools` is the one-element sequence holding the
`"search"` descriptor, whose inputSchema declares the single string property
`query` and requires it; the result is the same across any two calls. -/
theorem C8_tools_list_static (backend1 backend2 : Json → BackendOutcome)
    (p1 p2 i1 i2 : Json) :
    handle_request backend1
        (.obj [("method", Json.str "tools/list"), ("params", p1), ("id", i1)])
      = .ok (some (toolsListResponse i1)) ∧
    handle_request backend2
        (.obj [("method", Json.str "tools/list"), ("params", p2), ("id", i2)])
      = .ok (some (toolsListResponse i2)) ∧
    (toolsListResponse i1).lookupField "result"
      = some (.obj [("tools", .arr [toolDescriptor])]) ∧
    toolDescriptor.lookupField "name" = some (.str "search") ∧
    toolDescriptor.lookupField "inputSchema"
      = some (.obj [("type", .str "object"),
          ("properties", .obj [("query",
            .obj [("type", .str "string"),
                  ("description", .str "The search query")])]),
          ("required", .arr [.str "query"])]) ∧
    (toolsListResponse i1).lookupField "result"
      = (toolsListResponse i2).lookupField "result" :=
  ⟨rfl, rfl, rfl, rfl, rfl, rfl⟩

/-- Claim C9: no schema validation of tool arguments: a `tools/call` of
`search` whose arguments mapping lacks the required `query` key (including
when `arguments` is absent entirely, making it default to the empty dict)
still calls `search` with a `None` query and yields a normal `result`
Response with no `error` field. -/
theorem C9_missing_query_still_called (backend : Json → BackendOutcome)
    (fields pf af : List (String × Json))
    (hm : (fields.lookup "method").getD .null = Json.str "tools/call")
    (hp : (fields.lookup "params").getD (.obj []) = Json.obj pf)
    (hn : (pf.lookup "name").getD .null = Json.str "search")
    (ha : (pf.lookup "arguments").getD (.obj []) = Json.obj af)
    (hq : af.lookup "query" = none) :
    handle_request backend (.obj fields)
      = .ok (some (searchResultResponse ((fields.lookup "id").getD .null)
          (searchString backend Json.null))) ∧
    (searchResultResponse ((fields.lookup "id").getD .null)
        (searchString backend Json.null)).lookupField "error" = none := by
  refine ⟨?_, rfl⟩
  simp only [handle_request, hm, dispatch_toolsCall, hp, toolsCall, hn,
    toolsCallWith]
  rw [if_pos trivial]
  simp only [searchToolCall, ha]
  rw [hq]
  simp only [Option.getD, search_eq_ok]

/-- Witness for C9: `tools/call` of `search` with no `arguments` at all still
produces a `result` Response built from `search` on a `None` query. -/
theorem C9_witness :
    handle_request offlineBackend
        (.obj [("method", Json.str "tools/call"), ("id", Json.num 9),
               ("params", Json.obj [("name", Json.str "search")])])
      = .ok (some (searchResultResponse (Json.num 9)
          (searchString offlineBackend Json.null))) :=
  (C9_missing_query_still_called offlineBackend
    [("method", Json.str "tools/call"), ("id", Json.num 9),
     ("params", Json.obj [("name", Json.str "search")])]
    [("name", Json.str "search")] [] rfl rfl rfl rfl rfl).1

theorem serverRun_append (backend : Json → BackendOutcome)
    (xs ys : List InputLine) :
    serverRun backend (xs ++ ys)
      = serverRun backend xs ++ serverRun backend ys := by
  induction xs with
  | nil => simp [serverRun]
  | cons l rest ih => simp [serverRun, ih]

/-- Claim C10: a stdin line that decodes to a JSON value that is not an
object writes nothing to the protocol stream, logs a diagnostic (the
`AttributeError` is caught by the loop's `except Exception`), and the loop
goes on: the server output over any surrounding lines is exactly the output
over those other lines. -/
theorem C10_non_object_line_skipped (backend : Json → BackendOutcome)
    (j : Json) (pre post : List InputLine) (h : j.isObj = false) :
    processLine backend (.payload j) = ⟨[], true⟩ ∧
    serverRun backend (pre ++ .payload j :: post)
      = serverRun backend pre ++ serverRun backend post := by
  have hp : processLine backend (.payload j) = ⟨[], true⟩ := by
    cases j with
    | obj fields => simp [Json.isObj] at h
    | null => rfl
    | bool b => rfl
    | num n => rfl
    | str s => rfl
    | arr elems => rfl
  refine ⟨hp, ?_⟩
  rw [serverRun_append]
  simp [serverRun, hp]

/-- Witness for C10: a decoded array line between two `tools/list` requests
contributes nothing and both neighbours are still served. -/
theorem C10_witness :
    processLine offlineBackend (.payload (Json.arr [])) = ⟨[], true⟩ ∧
    serverRun offlineBackend
        ([InputLine.payload
            (Json.obj [("method", Json.str "tools/list"), ("id", Json.num 1)])]
          ++ InputLine.payload (Json.arr []) ::
            [InputLine.payload (Json.obj [("method", Json.str "tools/list"),
              ("id", Json.num 2)])])
      = serverRun offlineBackend
          [InputLine.payload
            (Json.obj [("method", Json.str "tools/list"), ("id", Json.num 1)])]
        ++ serverRun offlineBackend
            [InputLine.payload (Json.obj [("method", Json.str "tools/list"),
              ("id", Json.num 2)])] :=
  C10_non_object_line_skipped offlineBackend (Json.arr []) _ _ rfl
